import Mathlib

/-!
Verification of the exam session & question-queue protocol of the
AWS Certifications Coach repository.

The development shallowly embeds:

* the Valkey cache adapter (`app/valkey_client.py`, class `ValkeyClient`):
  a key-value store holding JSON session records under `session:<id>` and
  FIFO question queues under `exam_queue:<id>`.  Every public method first
  checks `is_connected()` (a ping) and wraps its body in `try/except`,
  converting any raised error into a conservative default return value
  (`False`, `None` or `0`).  Exceptions raised by the underlying client
  calls are modelled by explicit Boolean fault flags, one per raw call
  site; a `true` flag means "this call raised", and the embedding of each
  method transcribes exactly where the source catches that raise.
  JSON (de)serialisation is modelled as the identity; a `json.loads`
  failure is folded into the fault flag of the call that parses.

* the exam orchestration inside `show_practice_exam` (`app/dashboard.py`):
  start-exam with its defensive queue clear, bounded 30 x 1s polling loop
  for the first question, trigger-failure teardown; the finish-exam path
  with its `exam_finished` guard and single score-history insert; and the
  quit/cleanup path (producer-stop notification, session deletion, state
  reset), all over an explicit client-state record mirroring the
  `st.session_state` fields that the source reads and writes.

* the answer-normalisation check: `extract_letter` is transcribed from
  `app/dashboard.py`; `check_answer` itself is called on `ai_service` but
  its definition is not among the provided sources, so it is modelled
  from the spec (set-of-letters comparison, order- and case-insensitive).

Time (TTLs, sleeps) is kept abstract: a `sleep(1)` in the polling loop is
counted as one elapsed second; TTL expiry is not modelled (no claim here
depends on it).  The external producer is opaque: in this sequential
model "the producer never pushes" is represented by the queue not being
mutated between the orchestrator's own operations.
-/

/-- A JSON object (Python `dict`), as a partial map from field names to
(stringified) values.  `update` merge semantics: keys of the second
dictionary override the first. -/
def Dict : Type := String → Option String

/-- Python `base.update(upd)`: fields of `upd` override fields of `base`. -/
def Dict.merge (base upd : Dict) : Dict :=
  fun k => (upd k).elim (base k) some

/-- Point update of a string-keyed map (a single Valkey SET/DEL/RPUSH…). -/
def setKey {β : Type} (f : String → β) (k : String) (v : β) : String → β :=
  fun x => if x = k then v else f x

theorem setKey_same {β : Type} (f : String → β) (k : String) (v : β) :
    setKey f k v k = v := by
  simp [setKey]

theorem setKey_other {β : Type} (f : String → β) (k k' : String) (v : β)
    (h : k' ≠ k) : setKey f k v k' = f k' := by
  simp [setKey, h]

/-- Key namespacing of `ValkeyClient`: session records live under
`session:<id>`. -/
def sessionKey (session_id : String) : String :=
  "session:" ++ session_id

/-- Key namespacing of `ValkeyClient`: question queues live under
`exam_queue:<id>`. -/
def queueKey (session_id : String) : String :=
  "exam_queue:" ++ session_id

/-- The observable state of the Valkey store, split by value type:
session records (JSON blobs) and question queues (lists).  `hasClient`
models `self.client is not None` (the constructor sets `client = None`
when the connection attempt fails).  Question payloads are an arbitrary
type `Q` (the adapter never inspects them). -/
structure Store (Q : Type) where
  hasClient : Bool
  sessions : String → Option Dict
  queues : String → List Q

/-- `ValkeyClient.is_connected`: `False` when there is no client, else the
result of a ping; `pingF = true` models the ping raising (caught, giving
`False`). -/
def is_connected {Q : Type} (st : Store Q) (pingF : Bool) : Bool :=
  st.hasClient && !pingF

/-- `ValkeyClient.push_question`: RPUSH of the serialised question onto
`exam_queue:<id>`, then EXPIRE.  `rpushF` / `expireF` model the two raw
calls raising; note that when only the EXPIRE raises the RPUSH has
already taken effect, yet the method still returns `False`. -/
def push_question {Q : Type} (st : Store Q) (pingF rpushF expireF : Bool)
    (session_id : String) (question_data : Q) : Store Q × Bool :=
  if is_connected st pingF = false then (st, false)
  else if rpushF then (st, false)
  else
    let st1 : Store Q :=
      { st with queues := (setKey st.queues (queueKey session_id)
          (st.queues (queueKey session_id) ++ [question_data])) }
    if expireF then (st1, false) else (st1, true)

/-- `ValkeyClient.pop_question`: LPOP of `exam_queue:<id>`; an empty queue
yields `None` ("not ready yet").  `loadF` models `json.loads` raising
after the LPOP already removed the element (the element is then lost and
`None` is returned). -/
def pop_question {Q : Type} (st : Store Q) (pingF lpopF loadF : Bool)
    (session_id : String) : Store Q × Option Q :=
  if is_connected st pingF = false then (st, none)
  else if lpopF then (st, none)
  else
    match st.queues (queueKey session_id) with
    | [] => (st, none)
    | q :: rest =>
      let st1 : Store Q :=
        { st with queues := setKey st.queues (queueKey session_id) rest }
      if loadF then (st1, none) else (st1, some q)

/-- `ValkeyClient.get_queue_length`: LLEN of `exam_queue:<id>`. -/
def get_queue_length {Q : Type} (st : Store Q) (pingF llenF : Bool)
    (session_id : String) : Store Q × Nat :=
  if is_connected st pingF = false then (st, 0)
  else if llenF then (st, 0)
  else (st, (st.queues (queueKey session_id)).length)

/-- `ValkeyClient.clear_queue`: DEL of `exam_queue:<id>` (an absent key
and an empty list are observably the same queue). -/
def clear_queue {Q : Type} (st : Store Q) (pingF delF : Bool)
    (session_id : String) : Store Q × Bool :=
  if is_connected st pingF = false then (st, false)
  else if delF then (st, false)
  else ({ st with queues := setKey st.queues (queueKey session_id) [] }, true)

/-- `ValkeyClient.save_session`: SETEX of the serialised record under
`session:<id>` (TTL not modelled); overwrites any existing record. -/
def save_session {Q : Type} (st : Store Q) (pingF setexF : Bool)
    (session_id : String) (session_data : Dict) : Store Q × Bool :=
  if is_connected st pingF = false then (st, false)
  else if setexF then (st, false)
  else
    ({ st with sessions := (setKey st.sessions (sessionKey session_id)
        (some session_data)) }, true)

/-- `ValkeyClient.get_session`: GET of `session:<id>`, deserialised;
absent key gives `None`. -/
def get_session {Q : Type} (st : Store Q) (pingF getF : Bool)
    (session_id : String) : Store Q × Option Dict :=
  if is_connected st pingF = false then (st, none)
  else if getF then (st, none)
  else (st, st.sessions (sessionKey session_id))

/-- `ValkeyClient.update_session`: read-modify-write.  Fetches the record
via `get_session` (which performs its own connectivity ping, `pingF2`),
merges the partial update into it, and rewrites it via `save_session`
(its own ping `pingF3`).  When no record is found it returns `False`
without writing anything. -/
def update_session {Q : Type} (st : Store Q)
    (pingF pingF2 getF pingF3 setexF : Bool)
    (session_id : String) (updates : Dict) : Store Q × Bool :=
  if is_connected st pingF = false then (st, false)
  else
    let r := get_session st pingF2 getF session_id
    match r.2 with
    | some session =>
        save_session r.1 pingF3 setexF session_id (Dict.merge session updates)
    | none => (r.1, false)

/-- `ValkeyClient.delete_session`: DEL of `session:<id>`, then
`clear_queue` on the same id (the queue is lifecycle-coupled to the
session).  `clear_queue`'s own internal failures are caught inside
`clear_queue` and its return value is ignored, so `delete_session` still
returns `True` in that case — only a raise of its *own* DEL (`delF`)
yields `False`. -/
def delete_session {Q : Type} (st : Store Q)
    (pingF delF pingF2 delF2 : Bool) (session_id : String) : Store Q × Bool :=
  if is_connected st pingF = false then (st, false)
  else if delF then (st, false)
  else
    let st1 : Store Q :=
      { st with sessions := setKey st.sessions (sessionKey session_id) none }
    let r := clear_queue st1 pingF2 delF2 session_id
    (r.1, true)

/-! ### Question queue: FIFO and at-most-once delivery (claim C1) -/

/-- Push a whole list of questions in order via `push_question`
(fault-free adapter). -/
def pushAll {Q : Type} (session_id : String) : Store Q → List Q → Store Q
  | st, [] => st
  | st, q :: qs =>
    pushAll session_id (push_question st false false false session_id q).1 qs

/-- Pop `n` times via `pop_question` (fault-free adapter), collecting the
returned values in call order. -/
def popAll {Q : Type} (session_id : String) :
    Store Q → Nat → Store Q × List (Option Q)
  | st, 0 => (st, [])
  | st, n + 1 =>
    let r := pop_question st false false false session_id
    let r2 := popAll session_id r.1 n
    (r2.1, r.2 :: r2.2)

theorem push_question_ok {Q : Type} (st : Store Q) (session_id : String)
    (q : Q) (hc : st.hasClient = true) :
    push_question st false false false session_id q =
      ({ st with queues := (setKey st.queues (queueKey session_id)
          (st.queues (queueKey session_id) ++ [q])) }, true) := by
  simp [push_question, is_connected, hc]

theorem pushAll_spec {Q : Type} (session_id : String) (qs : List Q) :
    ∀ st : Store Q, st.hasClient = true →
      (pushAll session_id st qs).hasClient = true ∧
      (pushAll session_id st qs).queues (queueKey session_id) =
        st.queues (queueKey session_id) ++ qs := by
  induction qs with
  | nil => intro st hc; simp [pushAll, hc]
  | cons q qs ih =>
    intro st hc
    rw [pushAll, push_question_ok st session_id q hc]
    have h := ih { st with queues := (setKey st.queues (queueKey session_id)
        (st.queues (queueKey session_id) ++ [q])) } hc
    rcases h with ⟨h1, h2⟩
    refine ⟨h1, ?_⟩
    rw [h2]
    simp [setKey_same]

theorem pop_question_cons {Q : Type} (st : Store Q) (session_id : String)
    (q : Q) (rest : List Q) (hc : st.hasClient = true)
    (hq : st.queues (queueKey session_id) = q :: rest) :
    pop_question st false false false session_id =
      ({ st with queues := setKey st.queues (queueKey session_id) rest },
        some q) := by
  simp [pop_question, is_connected, hc, hq]

theorem popAll_spec {Q : Type} (session_id : String) (l : List Q) :
    ∀ st : Store Q, st.hasClient = true →
      st.queues (queueKey session_id) = l →
      (popAll session_id st l.length).2 = l.map some := by
  induction l with
  | nil => intro st _ _; simp [popAll]
  | cons q rest ih =>
    intro st hc hq
    rw [List.length_cons, popAll, pop_question_cons st session_id q rest hc hq]
    have h := ih { st with queues := setKey st.queues (queueKey session_id) rest }
      hc (setKey_same _ _ _)
    simp [h]

/-- C1: starting from an empty queue for a session, pushing N questions
with `push_question` and then popping N times with `pop_question` returns
exactly the pushed questions in push order (FIFO); and since each pop
removes the returned element, distinct pushed questions are returned at
most once (no popped question recurs in a later pop). -/
theorem queue_fifo_at_most_once {Q : Type} (st : Store Q)
    (session_id : String) (qs : List Q) (hc : st.hasClient = true)
    (hq : st.queues (queueKey session_id) = []) :
    (popAll session_id (pushAll session_id st qs) qs.length).2 = qs.map some ∧
    (qs.Nodup →
      (popAll session_id (pushAll session_id st qs) qs.length).2.Nodup) := by
  rcases pushAll_spec session_id qs st hc with ⟨h1, h2⟩
  rw [hq] at h2
  simp only [List.nil_append] at h2
  have hpop := popAll_spec session_id qs _ h1 h2
  refine ⟨hpop, fun hn => ?_⟩
  rw [hpop]
  exact hn.map (Option.some_injective Q)

/-- A concrete healthy store with no sessions and empty queues. -/
def stEmpty : Store Nat :=
  { hasClient := true, sessions := fun _ => none, queues := fun _ => [] }

theorem queue_fifo_at_most_once_witness :
    stEmpty.hasClient = true ∧ stEmpty.queues (queueKey "s1") = [] ∧
    ((popAll "s1" (pushAll "s1" stEmpty [10, 20, 30]) [10, 20, 30].length).2 =
        [10, 20, 30].map some ∧
      ([10, 20, 30].Nodup →
        (popAll "s1" (pushAll "s1" stEmpty [10, 20, 30])
            [10, 20, 30].length).2.Nodup)) :=
  ⟨rfl, rfl, queue_fifo_at_most_once stEmpty "s1" [10, 20, 30] rfl rfl⟩

/-! ### Answer normalisation (claim C3)

Strings are processed as `List Char` so that every operation is
kernel-computable; `String.toList` converts at the boundary. -/

/-- Python `str.strip` whitespace class (the characters relevant to
option labels). -/
def pyIsSpace (c : Char) : Bool :=
  c = ' ' || c = '\t' || c = '\n' || c = '\r'

/-- Python `str.strip()`: drop leading and trailing whitespace. -/
def pyStrip (s : List Char) : List Char :=
  ((s.dropWhile pyIsSpace).reverse.dropWhile pyIsSpace).reverse

/-- Python `str.upper()` (ASCII case mapping, which is all the option
labels use). -/
def pyUpper (s : List Char) : List Char :=
  s.map Char.toUpper

/-- `extract_letter` from `show_practice_exam` (`app/dashboard.py`):
`text_str = str(text).strip().upper()`; if `')'` occurs, the (stripped)
prefix before the first `')'`, else the first character (empty string for
empty input). -/
def extract_letter (text : String) : List Char :=
  let text_str := pyUpper (pyStrip text.toList)
  if text_str.contains ')' then
    pyStrip (text_str.takeWhile (fun c => c ≠ ')'))
  else
    text_str.take 1

/-- A submitted or correct answer: a bare string or a list of strings
(`isinstance(x, list)` in the source decides which). -/
inductive Ans where
  | single : String → Ans
  | multi : List String → Ans

/-- The "convert to list for uniform processing" step of the source:
a bare string becomes a one-element list. -/
def Ans.toList : Ans → List String
  | .single s => [s]
  | .multi l => l

/-- Membership test on extracted letters (Python `in` on a set's
underlying elements). -/
def letterMem (x : List Char) (l : List (List Char)) : Bool :=
  l.any (fun y => y == x)

/-- Python `set(a) == set(b)`: the two lists hold the same elements. -/
def sameSet (a b : List (List Char)) : Bool :=
  a.all (fun x => letterMem x b) && b.all (fun x => letterMem x a)

/-- Letters extracted from an answer, one per listed option. -/
def letterList (a : Ans) : List (List Char) :=
  a.toList.map extract_letter

/-- Result of the local answer check, as consumed by the dashboard
(`is_correct`, echoed `correct_answer` and `explanation`). -/
structure AnswerResult where
  is_correct : Bool
  correct_answer : Ans
  explanation : String

/-- Modelled from the spec: `ai_service.check_answer` is called by
`show_practice_exam` but its definition is not among the provided source
files.  Per the spec, `is_correct` is computed by normalising both the
submitted answer and the correct answer to a set of option letters
(extracted from "A) ..." style labels, as `extract_letter` does) and
comparing the sets for equality — order-insensitive and case-insensitive. -/
def check_answer (user_answer correct_answer : Ans) (explanation : String) :
    AnswerResult :=
  { is_correct := sameSet (letterList user_answer) (letterList correct_answer),
    correct_answer := correct_answer,
    explanation := explanation }

theorem letterMem_iff (x : List Char) (l : List (List Char)) :
    letterMem x l = true ↔ x ∈ l := by
  simp [letterMem, List.any_eq_true, beq_iff_eq]

theorem sameSet_iff (a b : List (List Char)) :
    sameSet a b = true ↔ ((∀ x ∈ a, x ∈ b) ∧ ∀ x ∈ b, x ∈ a) := by
  simp [sameSet, List.all_eq_true, letterMem_iff]

theorem sameSet_congr_left (a a' b : List (List Char))
    (h : ∀ x, x ∈ a ↔ x ∈ a') : sameSet a b = sameSet a' b := by
  have hiff : sameSet a b = true ↔ sameSet a' b = true := by
    rw [sameSet_iff, sameSet_iff]
    constructor
    · rintro ⟨h1, h2⟩
      exact ⟨fun x hx => h1 x ((h x).mpr hx), fun x hx => (h _).mp (h2 x hx)⟩
    · rintro ⟨h1, h2⟩
      exact ⟨fun x hx => h1 x ((h x).mp hx), fun x hx => (h _).mpr (h2 x hx)⟩
  have hbool : ∀ x y : Bool, (x = true ↔ y = true) → x = y := by decide
  exact hbool _ _ hiff

/-- C3: the answer check compares the sets of option letters extracted
from both sides, order-insensitively (invariant under permutation of a
multi-select answer) and case-insensitively; in particular
`check_answer "B) Amazon S3" "B"` is correct,
`check_answer ["A) Lambda","C) Fargate"] ["C","A"]` is correct,
`check_answer "A" "B"` is not, and a lower-case submission still
matches. -/
theorem check_answer_normalization :
    (∀ (u u' : List String) (c : Ans) (e : String), u.Perm u' →
      (check_answer (Ans.multi u) c e).is_correct =
        (check_answer (Ans.multi u') c e).is_correct) ∧
    (∀ e, (check_answer (Ans.single "B) Amazon S3")
        (Ans.single "B") e).is_correct = true) ∧
    (∀ e, (check_answer (Ans.multi ["A) Lambda", "C) Fargate"])
        (Ans.multi ["C", "A"]) e).is_correct = true) ∧
    (∀ e, (check_answer (Ans.single "A")
        (Ans.single "B") e).is_correct = false) ∧
    (∀ e, (check_answer (Ans.single "b) amazon s3")
        (Ans.single "B") e).is_correct = true) := by
  refine ⟨?_, fun _ => rfl, fun _ => rfl, fun _ => rfl, fun _ => rfl⟩
  intro u u' c e hp
  show sameSet (letterList (Ans.multi u)) _ =
    sameSet (letterList (Ans.multi u')) _
  apply sameSet_congr_left
  intro x
  exact (hp.map extract_letter).mem_iff

theorem check_answer_normalization_witness :
    (["A) Lambda", "C) Fargate"].Perm ["C) Fargate", "A) Lambda"] ∧
      (check_answer (Ans.multi ["A) Lambda", "C) Fargate"])
          (Ans.multi ["C", "A"]) "e").is_correct =
        (check_answer (Ans.multi ["C) Fargate", "A) Lambda"])
          (Ans.multi ["C", "A"]) "e").is_correct) ∧
    (check_answer (Ans.single "B) Amazon S3")
      (Ans.single "B") "e").is_correct = true :=
  ⟨⟨by decide,
    check_answer_normalization.1 ["A) Lambda", "C) Fargate"]
      ["C) Fargate", "A) Lambda"] (Ans.multi ["C", "A"]) "e" (by decide)⟩,
    check_answer_normalization.2.1 "e"⟩

/-! ### Exam orchestrator (`show_practice_exam`, `app/dashboard.py`)

The orchestrator flows are analysed over a fault-free cache adapter
(all adapter fault flags `false`): claims C2/C4/C7/C8 condition on the
producer/trigger/database, not on cache faults, and the adapter's own
fault behaviour is settled separately (C6, C10). -/

/-- One entry of `st.session_state.exam_results` (the dict appended after
each answer check). -/
structure ResultEntry where
  question : String
  user_answer : Ans
  correct_answer : Ans
  is_correct : Bool
  explanation : String

/-- The `st.session_state` fields of the practice-exam page that the
orchestration code reads and writes. -/
structure SessionState (Q : Type) where
  exam_session_id : Option String
  current_question : Option Q
  question_number : Nat
  total_questions : Nat
  exam_score : Nat
  exam_results : List ResultEntry
  show_explanation : Bool
  current_answer_result : Option AnswerResult
  exam_finished : Bool

/-- One row of the `exam_sessions` score-history table, as built by the
INSERT in the finish path (timestamps and duration are environmental and
not modelled). -/
structure ExamRow where
  session_id : String
  user_id : Nat
  difficulty : String
  topic : String
  total_questions : Nat
  correct_answers : Nat
  incorrect_answers : Nat
  percentage : ℚ
  passed : Bool

/-- The durable relational store, restricted to the score-history table
the claims are about. -/
structure DB where
  exam_sessions : List ExamRow

/-- Outcome of the start-exam flow as surfaced to the user. -/
inductive StartOutcome (Q : Type) where
  | started : Q → StartOutcome Q
  | timeout : StartOutcome Q
  | triggerFailed : StartOutcome Q
  | saveFailed : StartOutcome Q

/-- `max_wait = 30` seconds in the start-exam polling loop. -/
def max_wait : Nat := 30

/-- `wait_interval = 1` second between polls. -/
def wait_interval : Nat := 1

/-- The bounded polling loop of the start-exam flow:
`while waited < max_wait: pop; if question: break; sleep(1); waited += 1`.
The `Nat` argument is the remaining budget in iterations; the returned
`Nat` is the total seconds slept (one per unsuccessful poll). -/
def pollLoop {Q : Type} (session_id : String) :
    Store Q → Nat → Store Q × Option Q × Nat
  | st, 0 => (st, none, 0)
  | st, fuel + 1 =>
    let r := pop_question st false false false session_id
    match r.2 with
    | some q => (r.1, some q, 0)
    | none =>
      let r2 := pollLoop session_id r.1 fuel
      (r2.1, r2.2.1, r2.2.2 + wait_interval)

/-- The client state set when the first question arrives and the exam
becomes active (`st.session_state.* = ...` block of the success branch). -/
def startActiveState {Q : Type} (cs : SessionState Q) (session_id : String)
    (q : Q) (num_questions : Nat) : SessionState Q :=
  { cs with
    exam_session_id := some session_id
    current_question := some q
    question_number := 1
    total_questions := num_questions
    exam_score := 0
    exam_results := []
    show_explanation := false
    current_answer_result := none }

/-- The start-exam flow (`app/dashboard.py`, "Start Exam" button):
defensively clear any stale queue at the fresh session id, save the new
session record, call the generation trigger, and poll for the first
question with a bounded 30 x 1s loop.  On timeout or trigger failure the
session is deleted and an error is reported; on save failure an error is
reported.  `trigger_ok` is the Boolean result of
`ai_service.trigger_exam_generation`, which is modelled from the spec as
an opaque best-effort call (its definition is not among the provided
source files).  The returned `Nat` is the seconds slept while polling. -/
def start_exam {Q : Type} (st : Store Q) (cs : SessionState Q)
    (session_id : String) (session_data : Dict) (num_questions : Nat)
    (trigger_ok : Bool) :
    Store Q × SessionState Q × StartOutcome Q × Nat :=
  let r0 := clear_queue st false false session_id
  let r1 := save_session r0.1 false false session_id session_data
  if r1.2 then
    if trigger_ok then
      let r2 := pollLoop session_id r1.1 max_wait
      match r2.2.1 with
      | some q =>
        (r2.1, startActiveState cs session_id q num_questions,
          StartOutcome.started q, r2.2.2)
      | none =>
        let r3 := delete_session r2.1 false false false false session_id
        (r3.1, cs, StartOutcome.timeout, r2.2.2)
    else
      let r3 := delete_session r1.1 false false false false session_id
      (r3.1, cs, StartOutcome.triggerFailed, 0)
  else (r1.1, cs, StartOutcome.saveFailed, 0)

/-- The finish-exam flow (`app/dashboard.py`, "Finish Exam" button).  The
whole action is guarded by `if not st.session_state.exam_finished:`; a
second finish attempt (e.g. a UI re-render) is a no-op.  Inside the
guard: compute the percentage, and — in a `try` block whose failure is
caught and only logged — fetch the session record and, if present,
insert one row into `exam_sessions` (`dbFault = true` models
`execute_update` raising, in which case no row lands); then delete the
Valkey session and mark the exam finished.  The source's streak /
activity-log / aggregate-progress writes are outside the score-history
table and not modelled. -/
def finish_exam {Q : Type} (cs : SessionState Q) (db : DB) (st : Store Q)
    (session_id : String) (user_id : Nat) (dbFault : Bool) :
    SessionState Q × DB × Store Q :=
  if cs.exam_finished then (cs, db, st)
  else
    let score_percentage : ℚ :=
      (cs.exam_score : ℚ) / (cs.total_questions : ℚ) * 100
    let r := get_session st false false session_id
    let db1 : DB :=
      match r.2 with
      | some session_data =>
        if dbFault then db
        else
          { db with exam_sessions := (db.exam_sessions ++
              [{ session_id := session_id
                 user_id := user_id
                 difficulty := (session_data "difficulty").getD "medium"
                 topic := (session_data "topic").getD "All Topics"
                 total_questions := cs.total_questions
                 correct_answers := cs.exam_score
                 incorrect_answers := cs.total_questions - cs.exam_score
                 percentage := score_percentage
                 passed := decide (70 ≤ score_percentage) }]) }
      | none => db
    let r2 := delete_session r.1 false false false false session_id
    ({ cs with exam_finished := true }, db1, r2.1)

/-- Result of the producer-stop webhook call when it returns without
raising (the dashboard only inspects `result.get("error")`). -/
structure NotifyResult where
  hasError : Bool

/-- The `quit_session` webhook notification
(`ai_service._call_n8n_webhook(exam_webhook, {action: "quit_session", ...})`).
`raises = true` models the call raising (connection failure — or, with
the provided `_call_n8n_webhook` signature, the `async_call` keyword
mismatch); the dashboard catches it. -/
def notify_stop (raises hasError : Bool) : Except Unit NotifyResult :=
  if raises then Except.error () else Except.ok { hasError := hasError }

/-- Events observable in the cleanup path, in execution order. -/
inductive CleanupEvent where
  | notified : Bool → CleanupEvent
  | deletedSession : Bool → CleanupEvent
deriving DecidableEq

/-- The state reset at the end of the cleanup block (lines resetting
every exam-related `st.session_state` field; `total_questions` is not in
that list and is left as is). -/
def resetSessionState {Q : Type} (cs : SessionState Q) : SessionState Q :=
  { cs with
    exam_session_id := none
    current_question := none
    question_number := 0
    exam_score := 0
    exam_results := []
    show_explanation := false
    current_answer_result := none
    exam_finished := false }

/-- The quit/teardown cleanup (`app/dashboard.py`, the `if done:` block):
notify the producer to stop (in its own `try/except`, result only
logged), delete the Valkey session and queue (in its own `try/except`;
`delete_session` itself converts failures to `False`), then reset all
exam session state.  The event list records which steps ran and their
outcomes, in order.  The relational store is passed through untouched:
the cleanup path contains no database write. -/
def quit_cleanup {Q : Type} (cs : SessionState Q) (db : DB) (st : Store Q)
    (session_id : String) (notifyRaises notifyHasError : Bool)
    (pingF delF pingF2 delF2 : Bool) :
    SessionState Q × DB × Store Q × List CleanupEvent :=
  let ev1 :=
    match notify_stop notifyRaises notifyHasError with
    | Except.ok _ => CleanupEvent.notified true
    | Except.error _ => CleanupEvent.notified false
  let r := delete_session st pingF delF pingF2 delF2 session_id
  let ev2 := CleanupEvent.deletedSession r.2
  (resetSessionState cs, db, r.1, [ev1, ev2])

/-! ### Bounded polling and start-exam teardown (claims C2, C7) -/

theorem pop_question_empty {Q : Type} (st : Store Q) (session_id : String)
    (hq : st.queues (queueKey session_id) = []) :
    pop_question st false false false session_id = (st, none) := by
  unfold pop_question
  rw [hq]
  split <;> rfl

theorem pollLoop_empty {Q : Type} (session_id : String) (st : Store Q)
    (hq : st.queues (queueKey session_id) = []) :
    ∀ n : Nat, pollLoop session_id st n = (st, none, n) := by
  intro n
  induction n with
  | zero => rfl
  | succ n ih =>
    rw [pollLoop, pop_question_empty st session_id hq]
    simp [ih, wait_interval]

theorem delete_session_ok {Q : Type} (st : Store Q) (session_id : String)
    (hc : st.hasClient = true) :
    (delete_session st false false false false session_id).2 = true ∧
    (delete_session st false false false false
      session_id).1.sessions (sessionKey session_id) = none ∧
    (delete_session st false false false false
      session_id).1.queues (queueKey session_id) = [] ∧
    (delete_session st false false false false session_id).1.hasClient = true := by
  simp [delete_session, clear_queue, is_connected, hc, setKey_same]

/-- C2: with the producer never pushing (no question ever enters the
queue), the start flow polls `pop_question` thirty times at 1-second
intervals, sleeps exactly 30 seconds in total — it terminates, never
waiting indefinitely — then reports a timeout error and deletes the
session it had just created (the session record is gone and the queue is
empty).  The client state is untouched (the exam never becomes active). -/
theorem start_exam_bounded_timeout {Q : Type} (st : Store Q)
    (cs : SessionState Q) (session_id : String) (session_data : Dict)
    (num_questions : Nat) (hc : st.hasClient = true) :
    (start_exam st cs session_id session_data num_questions true).2.2.1 =
      StartOutcome.timeout ∧
    (start_exam st cs session_id session_data num_questions true).2.2.2 = 30 ∧
    (start_exam st cs session_id session_data num_questions
      true).1.sessions (sessionKey session_id) = none ∧
    (start_exam st cs session_id session_data num_questions
      true).1.queues (queueKey session_id) = [] ∧
    (start_exam st cs session_id session_data num_questions true).2.1 = cs := by
  obtain ⟨b, ss, qs⟩ := st
  simp only [Store.hasClient] at hc
  subst hc
  simp [start_exam, clear_queue, save_session, delete_session, is_connected,
    pollLoop_empty, setKey_same, max_wait]

theorem start_exam_bounded_timeout_witness :
    stEmpty.hasClient = true ∧
    ((start_exam stEmpty
        ({ exam_session_id := none, current_question := none,
           question_number := 0, total_questions := 5, exam_score := 0,
           exam_results := [], show_explanation := false,
           current_answer_result := none, exam_finished := false } :
          SessionState Nat)
        "exam_1_7" (fun _ => none) 5 true).2.2.1 = StartOutcome.timeout ∧
      (start_exam stEmpty
        ({ exam_session_id := none, current_question := none,
           question_number := 0, total_questions := 5, exam_score := 0,
           exam_results := [], show_explanation := false,
           current_answer_result := none, exam_finished := false } :
          SessionState Nat)
        "exam_1_7" (fun _ => none) 5 true).2.2.2 = 30 ∧
      (start_exam stEmpty
        ({ exam_session_id := none, current_question := none,
           question_number := 0, total_questions := 5, exam_score := 0,
           exam_results := [], show_explanation := false,
           current_answer_result := none, exam_finished := false } :
          SessionState Nat)
        "exam_1_7" (fun _ => none) 5 true).1.sessions (sessionKey "exam_1_7") =
        none ∧
      (start_exam stEmpty
        ({ exam_session_id := none, current_question := none,
           question_number := 0, total_questions := 5, exam_score := 0,
           exam_results := [], show_explanation := false,
           current_answer_result := none, exam_finished := false } :
          SessionState Nat)
        "exam_1_7" (fun _ => none) 5 true).1.queues (queueKey "exam_1_7") = [] ∧
      (start_exam stEmpty
        ({ exam_session_id := none, current_question := none,
           question_number := 0, total_questions := 5, exam_score := 0,
           exam_results := [], show_explanation := false,
           current_answer_result := none, exam_finished := false } :
          SessionState Nat)
        "exam_1_7" (fun _ => none) 5 true).2.1 =
        ({ exam_session_id := none, current_question := none,
           question_number := 0, total_questions := 5, exam_score := 0,
           exam_results := [], show_explanation := false,
           current_answer_result := none, exam_finished := false } :
          SessionState Nat)) :=
  ⟨rfl, start_exam_bounded_timeout stEmpty _ "exam_1_7" (fun _ => none) 5 rfl⟩

/-- C7: when the generation trigger fails after the fresh session record
has been saved, the start flow deletes that session record, reports the
trigger error to the caller, and leaves the client state exactly as it
was — in particular, if no exam session was active before, none is
active after (the state machine stays Idle). -/
theorem start_exam_trigger_failure {Q : Type} (st : Store Q)
    (cs : SessionState Q) (session_id : String) (session_data : Dict)
    (num_questions : Nat) (hc : st.hasClient = true)
    (hidle : cs.exam_session_id = none) :
    (start_exam st cs session_id session_data num_questions false).2.2.1 =
      StartOutcome.triggerFailed ∧
    (start_exam st cs session_id session_data num_questions
      false).1.sessions (sessionKey session_id) = none ∧
    (start_exam st cs session_id session_data num_questions false).2.1 = cs ∧
    (start_exam st cs session_id session_data num_questions
      false).2.1.exam_session_id = none := by
  obtain ⟨b, ss, qs⟩ := st
  simp only [Store.hasClient] at hc
  subst hc
  simp [start_exam, clear_queue, save_session, delete_session, is_connected,
    setKey_same, hidle]

theorem start_exam_trigger_failure_witness :
    stEmpty.hasClient = true ∧
    ({ exam_session_id := none, current_question := none, question_number := 0,
       total_questions := 5, exam_score := 0, exam_results := [],
       show_explanation := false, current_answer_result := none,
       exam_finished := false } : SessionState Nat).exam_session_id = none ∧
    ((start_exam stEmpty
        ({ exam_session_id := none, current_question := none,
           question_number := 0, total_questions := 5, exam_score := 0,
           exam_results := [], show_explanation := false,
           current_answer_result := none, exam_finished := false } :
          SessionState Nat)
        "exam_1_8" (fun _ => none) 5 false).2.2.1 =
        StartOutcome.triggerFailed ∧
      (start_exam stEmpty
        ({ exam_session_id := none, current_question := none,
           question_number := 0, total_questions := 5, exam_score := 0,
           exam_results := [], show_explanation := false,
           current_answer_result := none, exam_finished := false } :
          SessionState Nat)
        "exam_1_8" (fun _ => none) 5 false).1.sessions (sessionKey "exam_1_8") =
        none ∧
      (start_exam stEmpty
        ({ exam_session_id := none, current_question := none,
           question_number := 0, total_questions := 5, exam_score := 0,
           exam_results := [], show_explanation := false,
           current_answer_result := none, exam_finished := false } :
          SessionState Nat)
        "exam_1_8" (fun _ => none) 5 false).2.1 =
        ({ exam_session_id := none, current_question := none,
           question_number := 0, total_questions := 5, exam_score := 0,
           exam_results := [], show_explanation := false,
           current_answer_result := none, exam_finished := false } :
          SessionState Nat) ∧
      (start_exam stEmpty
        ({ exam_session_id := none, current_question := none,
           question_number := 0, total_questions := 5, exam_score := 0,
           exam_results := [], show_explanation := false,
           current_answer_result := none, exam_finished := false } :
          SessionState Nat)
        "exam_1_8" (fun _ => none) 5 false).2.1.exam_session_id = none) :=
  ⟨rfl, rfl,
    start_exam_trigger_failure stEmpty _ "exam_1_8" (fun _ => none) 5 rfl rfl⟩

/-! ### Idempotent finish (claim C4) -/

/-- C4: finishing an exam inserts exactly one row into the
`exam_sessions` score-history table, and a second finish attempt on the
same session — e.g. after a UI re-render — is a complete no-op (the
`exam_finished` guard short-circuits it), whatever the database fault
behaviour of the second attempt.  Hypotheses: the exam was not already
finished, the cache is reachable, the session record is present, and the
first insert does not itself fail. -/
theorem finish_exam_idempotent {Q : Type} (cs : SessionState Q) (db : DB)
    (st : Store Q) (session_id : String) (user_id : Nat) (d : Dict)
    (hfin : cs.exam_finished = false) (hc : st.hasClient = true)
    (hs : st.sessions (sessionKey session_id) = some d) :
    (finish_exam cs db st session_id user_id false).2.1.exam_sessions.length =
      db.exam_sessions.length + 1 ∧
    ∀ dbFault2 : Bool,
      finish_exam (finish_exam cs db st session_id user_id false).1
          (finish_exam cs db st session_id user_id false).2.1
          (finish_exam cs db st session_id user_id false).2.2
          session_id user_id dbFault2 =
        finish_exam cs db st session_id user_id false := by
  have h1 : (finish_exam cs db st session_id user_id
      false).1.exam_finished = true := by
    simp [finish_exam, hfin]
  constructor
  · simp [finish_exam, hfin, get_session, is_connected, hc, hs]
  · intro dbFault2
    rw [finish_exam]
    simp [h1]

/-- A concrete session record used by witnesses. -/
def dict1 : Dict :=
  fun k => if k = "difficulty" then some "hard" else none

/-- A concrete healthy store holding one session record and a one-element
queue for session id `s1`. -/
def stOne : Store Nat :=
  { hasClient := true
    sessions := fun k => if k = sessionKey "s1" then some dict1 else none
    queues := fun k => if k = queueKey "s1" then [7] else [] }

theorem finish_exam_idempotent_witness :
    ({ exam_session_id := some "s1", current_question := none,
       question_number := 2, total_questions := 2, exam_score := 1,
       exam_results := [], show_explanation := true,
       current_answer_result := none, exam_finished := false } :
        SessionState Nat).exam_finished = false ∧
    stOne.hasClient = true ∧
    stOne.sessions (sessionKey "s1") = some dict1 ∧
    ((finish_exam
        ({ exam_session_id := some "s1", current_question := none,
           question_number := 2, total_questions := 2, exam_score := 1,
           exam_results := [], show_explanation := true,
           current_answer_result := none, exam_finished := false } :
            SessionState Nat)
        ({ exam_sessions := [] } : DB) stOne "s1" 1
        false).2.1.exam_sessions.length =
      ({ exam_sessions := [] } : DB).exam_sessions.length + 1 ∧
    ∀ dbFault2 : Bool,
      finish_exam
          (finish_exam
            ({ exam_session_id := some "s1", current_question := none,
               question_number := 2, total_questions := 2, exam_score := 1,
               exam_results := [], show_explanation := true,
               current_answer_result := none, exam_finished := false } :
                SessionState Nat)
            ({ exam_sessions := [] } : DB) stOne "s1" 1 false).1
          (finish_exam
            ({ exam_session_id := some "s1", current_question := none,
               question_number := 2, total_questions := 2, exam_score := 1,
               exam_results := [], show_explanation := true,
               current_answer_result := none, exam_finished := false } :
                SessionState Nat)
            ({ exam_sessions := [] } : DB) stOne "s1" 1 false).2.1
          (finish_exam
            ({ exam_session_id := some "s1", current_question := none,
               question_number := 2, total_questions := 2, exam_score := 1,
               exam_results := [], show_explanation := true,
               current_answer_result := none, exam_finished := false } :
                SessionState Nat)
            ({ exam_sessions := [] } : DB) stOne "s1" 1 false).2.2
          "s1" 1 dbFault2 =
        finish_exam
          ({ exam_session_id := some "s1", current_question := none,
             question_number := 2, total_questions := 2, exam_score := 1,
             exam_results := [], show_explanation := true,
             current_answer_result := none, exam_finished := false } :
              SessionState Nat)
          ({ exam_sessions := [] } : DB) stOne "s1" 1 false) :=
  ⟨rfl, rfl, rfl,
    finish_exam_idempotent _ { exam_sessions := [] } stOne "s1" 1 dict1
      rfl rfl rfl⟩

/-! ### Session/queue lifecycle coupling (claim C5) -/

/-- C5: `delete_session` removes the session record and clears the
session's queue in the same call, returning `True`; afterwards
`get_session` yields `None` and `get_queue_length` yields `0` for that
id. -/
theorem delete_session_coupling {Q : Type} (st : Store Q)
    (session_id : String) (hc : st.hasClient = true) :
    (delete_session st false false false false session_id).2 = true ∧
    (get_session (delete_session st false false false false session_id).1
      false false session_id).2 = none ∧
    (get_queue_length (delete_session st false false false false
      session_id).1 false false session_id).2 = 0 := by
  obtain ⟨hret, hsess, hqueue, hclient⟩ := delete_session_ok st session_id hc
  refine ⟨hret, ?_, ?_⟩
  · simp [get_session, is_connected, hclient, hsess]
  · simp [get_queue_length, is_connected, hclient, hqueue]

theorem delete_session_coupling_witness :
    stOne.hasClient = true ∧
    ((delete_session stOne false false false false "s1").2 = true ∧
      (get_session (delete_session stOne false false false false "s1").1
        false false "s1").2 = none ∧
      (get_queue_length (delete_session stOne false false false false
        "s1").1 false false "s1").2 = 0) :=
  ⟨rfl, delete_session_coupling stOne "s1" rfl⟩

/-! ### Adapter failure semantics (claims C6, C10) -/

/-- A store whose connection attempt failed (`self.client = None`). -/
def stDown : Store Nat :=
  { hasClient := false, sessions := fun _ => none, queues := fun _ => [] }

/-- C6: every cache-adapter operation, whenever the store is disconnected
(no client, or the connectivity ping raises) or one of the raw client
calls whose exception reaches that operation's own `try` block raises,
returns the conservative default of its return type — `False`, `None` or
`0` — instead of propagating the error.  (Exceptions cannot escape the
embedded operations at all: each is a total function whose branches
transcribe the source's `catch`-and-return-default structure.  The
queue-deletion inside `delete_session` is performed by `clear_queue`,
which catches its own failures, so only `delete_session`'s own DEL fault
is part of its condition.) -/
theorem adapter_conservative_defaults {Q : Type} (st : Store Q)
    (session_id : String) (q : Q) (d upd : Dict) :
    (∀ pingF rpushF expireF : Bool,
      (is_connected st pingF = false ∨ rpushF = true ∨ expireF = true) →
      (push_question st pingF rpushF expireF session_id q).2 = false) ∧
    (∀ pingF lpopF loadF : Bool,
      (is_connected st pingF = false ∨ lpopF = true ∨ loadF = true) →
      (pop_question st pingF lpopF loadF session_id).2 = none) ∧
    (∀ pingF llenF : Bool,
      (is_connected st pingF = false ∨ llenF = true) →
      (get_queue_length st pingF llenF session_id).2 = 0) ∧
    (∀ pingF delF : Bool,
      (is_connected st pingF = false ∨ delF = true) →
      (clear_queue st pingF delF session_id).2 = false) ∧
    (∀ pingF setexF : Bool,
      (is_connected st pingF = false ∨ setexF = true) →
      (save_session st pingF setexF session_id d).2 = false) ∧
    (∀ pingF getF : Bool,
      (is_connected st pingF = false ∨ getF = true) →
      (get_session st pingF getF session_id).2 = none) ∧
    (∀ pingF pingF2 getF pingF3 setexF : Bool,
      (is_connected st pingF = false ∨ pingF2 = true ∨ getF = true ∨
        pingF3 = true ∨ setexF = true) →
      (update_session st pingF pingF2 getF pingF3 setexF session_id
        upd).2 = false) ∧
    (∀ pingF delF pingF2 delF2 : Bool,
      (is_connected st pingF = false ∨ delF = true) →
      (delete_session st pingF delF pingF2 delF2 session_id).2 = false) := by
  obtain ⟨b, ss, qs⟩ := st
  refine ⟨?_, ?_, ?_, ?_, ?_, ?_, ?_, ?_⟩
  · intro pingF rpushF expireF h
    cases b <;> cases pingF <;> cases rpushF <;> cases expireF <;>
      simp_all [push_question, is_connected]
  · intro pingF lpopF loadF h
    cases b <;> cases pingF <;> cases lpopF <;> cases loadF <;>
      cases hq : qs (queueKey session_id) <;>
      simp_all [pop_question, is_connected]
  · intro pingF llenF h
    cases b <;> cases pingF <;> cases llenF <;>
      simp_all [get_queue_length, is_connected]
  · intro pingF delF h
    cases b <;> cases pingF <;> cases delF <;>
      simp_all [clear_queue, is_connected]
  · intro pingF setexF h
    cases b <;> cases pingF <;> cases setexF <;>
      simp_all [save_session, is_connected]
  · intro pingF getF h
    cases b <;> cases pingF <;> cases getF <;>
      simp_all [get_session, is_connected]
  · intro pingF pingF2 getF pingF3 setexF h
    cases b <;> cases pingF <;> cases pingF2 <;> cases getF <;>
      cases pingF3 <;> cases setexF <;>
      cases hss : ss (sessionKey session_id) <;>
      simp_all [update_session, get_session, save_session, is_connected]
  · intro pingF delF pingF2 delF2 h
    cases b <;> cases pingF <;> cases delF <;>
      simp_all [delete_session, is_connected]

theorem adapter_conservative_defaults_witness :
    ((push_question stDown false false false "s" 0).2 = false ∧
      (push_question stOne false true false "s" 0).2 = false) ∧
    ((pop_question stDown false false false "s").2 = none ∧
      (pop_question stOne true false false "s").2 = none) ∧
    (get_queue_length stDown false false "s").2 = 0 ∧
    (clear_queue stDown false false "s").2 = false ∧
    (save_session stDown false false "s" dict1).2 = false ∧
    (get_session stDown false false "s").2 = none ∧
    (update_session stDown false false false false false "s" dict1).2 = false ∧
    (delete_session stDown false false false false "s").2 = false :=
  ⟨⟨(adapter_conservative_defaults stDown "s" 0 dict1 dict1).1 false false false
      (Or.inl rfl),
    (adapter_conservative_defaults stOne "s" 0 dict1 dict1).1 false true false
      (Or.inr (Or.inl rfl))⟩,
   ⟨(adapter_conservative_defaults stDown "s" 0 dict1 dict1).2.1 false false
      false (Or.inl rfl),
    (adapter_conservative_defaults stOne "s" 0 dict1 dict1).2.1 true false
      false (Or.inl rfl)⟩,
   (adapter_conservative_defaults stDown "s" 0 dict1 dict1).2.2.1 false false
     (Or.inl rfl),
   (adapter_conservative_defaults stDown "s" 0 dict1 dict1).2.2.2.1 false false
     (Or.inl rfl),
   (adapter_conservative_defaults stDown "s" 0 dict1 dict1).2.2.2.2.1 false
     false (Or.inl rfl),
   (adapter_conservative_defaults stDown "s" 0 dict1 dict1).2.2.2.2.2.1 false
     false (Or.inl rfl),
   (adapter_conservative_defaults stDown "s" 0 dict1 dict1).2.2.2.2.2.2.1 false
     false false false false (Or.inl rfl),
   (adapter_conservative_defaults stDown "s" 0 dict1 dict1).2.2.2.2.2.2.2 false
     false false false (Or.inl rfl)⟩

/-- C10: updating a session whose record is absent (or expired) returns
`False` and leaves the whole cache exactly as it was — for any
connectivity and fault configuration, `update_session` never creates a
record from the partial update. -/
theorem update_session_absent {Q : Type} (st : Store Q) (session_id : String)
    (updates : Dict) (pingF pingF2 getF pingF3 setexF : Bool)
    (hs : st.sessions (sessionKey session_id) = none) :
    update_session st pingF pingF2 getF pingF3 setexF session_id updates =
      (st, false) := by
  obtain ⟨b, ss, qs⟩ := st
  simp only [Store.sessions] at hs
  cases b <;> cases pingF <;> cases pingF2 <;> cases getF <;>
    simp_all [update_session, get_session, is_connected]

theorem update_session_absent_witness :
    stEmpty.sessions (sessionKey "ghost") = none ∧
    update_session stEmpty false false false false false "ghost" dict1 =
      (stEmpty, false) :=
  ⟨rfl,
    update_session_absent stEmpty "ghost" dict1 false false false false false
      rfl⟩

/-! ### Quit: no persistence, fault-independent cleanup (claims C8, C9) -/

/-- C8: quitting an exam before it is finished — whatever the progress
recorded in the client state and whatever the notification/cache fault
behaviour — writes nothing to the `exam_sessions` score-history table
(the relational store passes through the cleanup untouched) and resets
the client state: no active session id, results discarded, score zeroed,
not finished.  Only the producer-stop notification and the session/queue
deletion are performed. -/
theorem quit_exam_no_score_persisted {Q : Type} (cs : SessionState Q)
    (db : DB) (st : Store Q) (session_id : String)
    (notifyRaises notifyHasError pingF delF pingF2 delF2 : Bool) :
    (quit_cleanup cs db st session_id notifyRaises notifyHasError
      pingF delF pingF2 delF2).2.1 = db ∧
    (quit_cleanup cs db st session_id notifyRaises notifyHasError
      pingF delF pingF2 delF2).1 = resetSessionState cs ∧
    (quit_cleanup cs db st session_id notifyRaises notifyHasError
      pingF delF pingF2 delF2).1.exam_session_id = none ∧
    (quit_cleanup cs db st session_id notifyRaises notifyHasError
      pingF delF pingF2 delF2).1.exam_results = [] ∧
    (quit_cleanup cs db st session_id notifyRaises notifyHasError
      pingF delF pingF2 delF2).1.exam_score = 0 ∧
    (quit_cleanup cs db st session_id notifyRaises notifyHasError
      pingF delF pingF2 delF2).1.exam_finished = false := by
  simp [quit_cleanup, resetSessionState]

/-- C9: the quit/teardown cleanup is total (the embedded cleanup catches
the notification's raise — `notify_stop` is the only `Except`-valued
step and both of its outcomes are handled) and its steps are
independent: for every fault configuration the event trace shows the
producer-stop notification attempted first and the session deletion
attempted after it, and the client state is reset; in particular, when
the webhook notification raises, the session deletion (and queue
clearing) on a healthy store still takes effect — and a failing deletion
cannot prevent the notification, which has already run. -/
theorem quit_cleanup_fault_independent {Q : Type} (cs : SessionState Q)
    (db : DB) (st : Store Q) (session_id : String)
    (notifyRaises notifyHasError pingF delF pingF2 delF2 : Bool) :
    (quit_cleanup cs db st session_id notifyRaises notifyHasError
      pingF delF pingF2 delF2).2.2.2 =
      [CleanupEvent.notified (!notifyRaises),
        CleanupEvent.deletedSession
          (delete_session st pingF delF pingF2 delF2 session_id).2] ∧
    (quit_cleanup cs db st session_id notifyRaises notifyHasError
      pingF delF pingF2 delF2).1 = resetSessionState cs ∧
    (notifyRaises = true → st.hasClient = true → pingF = false →
      delF = false → pingF2 = false → delF2 = false →
      (quit_cleanup cs db st session_id notifyRaises notifyHasError
        pingF delF pingF2 delF2).2.2.1.sessions (sessionKey session_id) =
          none ∧
      (quit_cleanup cs db st session_id notifyRaises notifyHasError
        pingF delF pingF2 delF2).2.2.1.queues (queueKey session_id) = []) := by
  refine ⟨?_, rfl, ?_⟩
  · cases notifyRaises <;> simp [quit_cleanup, notify_stop]
  · intro _ hc h1 h2 h3 h4
    subst h1; subst h2; subst h3; subst h4
    obtain ⟨_, hsess, hqueue, _⟩ := delete_session_ok st session_id hc
    exact ⟨hsess, hqueue⟩

/-- A concrete mid-exam client state (question 1 of 5 answered). -/
def csActive : SessionState Nat :=
  { exam_session_id := some "s1"
    current_question := some 7
    question_number := 1
    total_questions := 5
    exam_score := 1
    exam_results := []
    show_explanation := true
    current_answer_result := none
    exam_finished := false }

theorem quit_cleanup_fault_independent_witness :
    (quit_cleanup csActive { exam_sessions := [] } stOne "s1" true false
      false false false false).2.2.2 =
      [CleanupEvent.notified false,
        CleanupEvent.deletedSession
          (delete_session stOne false false false false "s1").2] ∧
    (quit_cleanup csActive { exam_sessions := [] } stOne "s1" true false
      false false false false).1 = resetSessionState csActive ∧
    ((quit_cleanup csActive { exam_sessions := [] } stOne "s1" true false
      false false false false).2.2.1.sessions (sessionKey "s1") = none ∧
    (quit_cleanup csActive { exam_sessions := [] } stOne "s1" true false
      false false false false).2.2.1.queues (queueKey "s1") = []) :=
  ⟨(quit_cleanup_fault_independent csActive { exam_sessions := [] } stOne
      "s1" true false false false false false).1,
    (quit_cleanup_fault_independent csActive { exam_sessions := [] } stOne
      "s1" true false false false false false).2.1,
    (quit_cleanup_fault_independent csActive { exam_sessions := [] } stOne
      "s1" true false false false false false).2.2 rfl rfl rfl rfl rfl rfl⟩
